import Mathlib

/-!
Verification of the Health-Advisor chatbot core (src/main.py) against its
natural-language specification.  Shallow embedding: the Completion Client
`get_deepseek_response`, the Speech Trigger `text_to_speech`, and the
Session Controller handlers (chat input, quick actions, clear history,
test connection) are translated into pure Lean functions.  Network I/O is
modelled by an explicit `NetOutcome` oracle passed to the client; Python
exceptions are modelled with `Except`; Python dict/list/str values carried
in JSON bodies are modelled by `JVal`.
-/

namespace HealthAdvisor

/-- Role of a chat turn, as used in the message dicts of main.py. -/
inductive Role where
  | user
  | assistant
  | system
deriving DecidableEq, Repr

/-- A JSON-like Python value: what `response.json()` can produce and what the
message dicts carry in their `content` field. -/
inductive JVal where
  | jnull
  | jbool (b : Bool)
  | jnum (n : Int)
  | jstr (s : String)
  | jarr (elems : List JVal)
  | jobj (fields : List (String × JVal))
deriving Repr

/-- A chat turn `{"role": ..., "content": ...}`.  The content is a `JVal`
because Python dicts can hold any value (user turns always hold strings, but
an assistant turn holds whatever the API returned). -/
structure Turn where
  role : Role
  content : JVal
deriving Repr

/-- Python exceptions relevant to main.py.  `typeError` and
`attributeError` are NOT listed in any `except` clause of the source and
therefore escape `get_deepseek_response` / the controller. -/
inductive PyExc where
  | typeError
  | attributeError
  | keyError
  | indexError
  | jsonDecodeError
deriving DecidableEq, Repr

/-- The possible outcomes of the single `requests.post` call in
`get_deepseek_response`: an HTTP response (status plus decoded JSON body,
`none` meaning the body is not valid JSON), a raised
`requests.exceptions.ConnectionError`, or a raised
`requests.exceptions.Timeout`. -/
inductive NetOutcome where
  | response (status : Nat) (body : Option JVal)
  | connectionFailure
  | timeout
deriving Repr

/-! ### Python primitive semantics -/

/-- Characters stripped by Python `str.strip()` (the ASCII whitespace set;
API keys contain no exotic Unicode whitespace, so the model covers the
relevant cases). -/
def isPySpace (c : Char) : Bool :=
  c == ' ' || c == '\t' || c == '\n' || c == '\r' || c == '\x0b' || c == '\x0c'

/-- Drop the trailing run of characters satisfying `p`. -/
def dropRightWhile (p : Char → Bool) (l : List Char) : List Char :=
  (l.reverse.dropWhile p).reverse

/-- Strip leading and trailing whitespace from a character list. -/
def trimList (l : List Char) : List Char :=
  dropRightWhile isPySpace (l.dropWhile isPySpace)

/-- Python `s.strip()`. -/
def pyStrip (s : String) : String := ⟨trimList s.data⟩

/-- Python `s.startswith(pre)`. -/
def py_startswith (pre s : String) : Bool := pre.data.isPrefixOf s.data

mutual

/-- Structural equality of `JVal`, modelling Python `==` on JSON values. -/
def jval_beq : JVal → JVal → Bool
  | .jnull, .jnull => true
  | .jbool a, .jbool b => a == b
  | .jnum a, .jnum b => a == b
  | .jstr a, .jstr b => a == b
  | .jarr a, .jarr b => jlist_beq a b
  | .jobj a, .jobj b => jfields_beq a b
  | _, _ => false

/-- Elementwise `jval_beq` on lists. -/
def jlist_beq : List JVal → List JVal → Bool
  | [], [] => true
  | a :: as, b :: bs => jval_beq a b && jlist_beq as bs
  | _, _ => false

/-- Fieldwise `jval_beq` on association lists. -/
def jfields_beq : List (String × JVal) → List (String × JVal) → Bool
  | [], [] => true
  | (ka, va) :: as, (kb, vb) :: bs => ka == kb && jval_beq va vb && jfields_beq as bs
  | _, _ => false

end

/-- Substring containment on character lists (Python `t in s` for strings). -/
def is_sublist_of (t : List Char) : List Char → Bool
  | [] => t.isEmpty
  | c :: rest => t.isPrefixOf (c :: rest) || is_sublist_of t rest

/-- Python `item in container`.  Dicts test key membership, lists test
element equality, strings test substring containment (requiring a string
item); `in` on a number, boolean or `None` raises `TypeError`. -/
def pyContains (container item : JVal) : Except PyExc Bool :=
  match container, item with
  | .jobj fields, .jstr k => .ok (fields.any (fun kv => kv.1 == k))
  | .jobj _, _ => .ok false
  | .jarr xs, x => .ok (xs.any (fun v => jval_beq v x))
  | .jstr s, .jstr t => .ok (is_sublist_of t.data s.data)
  | .jstr _, _ => .error .typeError
  | _, _ => .error .typeError

/-- Python `container[key]` with a string key.  Dict lookup raises
`KeyError` on a missing key; subscripting a list or string with a string,
or subscripting a non-container, raises `TypeError`. -/
def pySubscript (v : JVal) (key : String) : Except PyExc JVal :=
  match v with
  | .jobj fields =>
    match fields.lookup key with
    | some x => .ok x
    | none => .error .keyError
  | _ => .error .typeError

/-- Python `len(v)`: defined for strings, lists and dicts, `TypeError`
otherwise. -/
def pyLen : JVal → Except PyExc Nat
  | .jstr s => .ok s.length
  | .jarr xs => .ok xs.length
  | .jobj fs => .ok fs.length
  | _ => .error .typeError

/-- Python `v[0]`: head of a list (`IndexError` when empty), first character
of a string, `KeyError` on a string-keyed dict, `TypeError` otherwise. -/
def pyIndexZero : JVal → Except PyExc JVal
  | .jarr [] => .error .indexError
  | .jarr (x :: _) => .ok x
  | .jstr s =>
    match s.data with
    | [] => .error .indexError
    | c :: _ => .ok (.jstr ⟨[c]⟩)
  | .jobj _ => .error .keyError
  | _ => .error .typeError

/-! ### Completion Client: `get_deepseek_response` (main.py lines 69-133) -/

/-- main.py line 73. -/
def config_error_msg : String :=
  "❌ Error: API key is empty. Please enter a valid DeepSeek API key in the sidebar."

/-- main.py line 112. -/
def auth_error_msg : String :=
  "❌ Authentication Error: Invalid API key. Please check your DeepSeek API key and make sure it\x27s correct."

/-- main.py line 114. -/
def rate_limit_msg : String :=
  "⚠️ Rate Limit: Too many requests. Please wait a moment and try again."

/-- main.py line 116. -/
def server_error_msg : String :=
  "❌ Server Error: DeepSeek API is experiencing issues. Please try again later."

/-- main.py line 124. -/
def format_error_msg : String :=
  "❌ Error: Unexpected response format from API."

/-- main.py line 127. -/
def timeout_msg : String :=
  "⏱️ Timeout Error: Request took too long. Please try again."

/-- main.py line 129. -/
def connection_msg : String :=
  "🌐 Connection Error: Unable to connect to DeepSeek API. Check your internet connection."

/-- main.py line 131: the generic handler for `requests.exceptions.RequestException`,
which receives the `HTTPError` raised by `response.raise_for_status()`. -/
def request_error_msg (e : String) : String := "❌ Request Error: " ++ e

/-- main.py line 133. -/
def parse_error_msg (e : String) : String :=
  "❌ Parse Error: Unable to parse API response - " ++ e

/-- Rendering of `str(e)` for the exceptions converted into messages; the
exact wording of the Python exception text is abstracted, only its presence
in the message matters. -/
def exc_str : PyExc → String
  | .typeError => "TypeError"
  | .attributeError => "AttributeError"
  | .keyError => "KeyError"
  | .indexError => "IndexError"
  | .jsonDecodeError => "Expecting value"

/-- Rendering of `str(e)` for the `HTTPError` raised by
`raise_for_status()`; it carries the status code (reason phrase and URL
abstracted). -/
def http_error_str (status : Nat) : String :=
  toString status ++ (if status < 500 then " Client Error" else " Server Error")

/-- The fixed system instruction prepended to every request
(main.py lines 83-95). -/
def system_message : Turn :=
  ⟨Role.system, .jstr ("You are a helpful health advice assistant. Provide general health information, wellness tips, and lifestyle advice. \n\nIMPORTANT DISCLAIMERS:\n- You are NOT a replacement for professional medical advice\n- Always remind users to consult healthcare professionals for diagnosis and treatment\n- Do not provide specific diagnoses or prescribe medications\n- Focus on general wellness, preventive care, and healthy lifestyle tips\n- If someone describes serious symptoms, urge them to seek immediate medical attention\n\nBe empathetic, informative, and always prioritize user safety. Keep responses concise and clear.")⟩

/-- The outbound HTTP request built by `get_deepseek_response`
(main.py lines 75-105).  `temperature_tenths` holds the sampling
temperature scaled by ten (0.7) to stay within exact arithmetic. -/
structure ApiRequest where
  url : String
  auth : String
  content_type : String
  model : String
  messages : List Turn
  temperature_tenths : Nat
  max_tokens : Nat
  stream : Bool
deriving Repr

/-- The request sent for a given credential and transcript. -/
def mk_request (api_key : String) (messages : List Turn) : ApiRequest :=
  { url := "https://api.deepseek.com/chat/completions"
    auth := "Bearer " ++ pyStrip api_key
    content_type := "application/json"
    model := "deepseek-chat"
    messages := system_message :: messages
    temperature_tenths := 7
    max_tokens := 1000
    stream := false }

/-- The `try`-block body after a non-error status (main.py lines 121-124):
`if 'choices' in result and len(result['choices']) > 0: return
result['choices'][0]['message']['content'] else: return <format error>`. -/
def extract_content (result : JVal) : Except PyExc JVal := do
  let has_choices ← pyContains result (.jstr "choices")
  if has_choices then
    let choices ← pySubscript result "choices"
    let n ← pyLen choices
    if n > 0 then
      let choice0 ← pyIndexZero choices
      let msg ← pySubscript choice0 "message"
      pySubscript msg "content"
    else
      pure (.jstr format_error_msg)
  else
    pure (.jstr format_error_msg)

/-- The `except` clauses of main.py lines 126-133: `KeyError`, `IndexError`
and `json.JSONDecodeError` become the parse-error message; `TypeError`
(and any other exception) is not listed and escapes. -/
def apply_handlers : Except PyExc JVal → Except PyExc JVal
  | .ok v => .ok v
  | .error .keyError => .ok (.jstr (parse_error_msg (exc_str .keyError)))
  | .error .indexError => .ok (.jstr (parse_error_msg (exc_str .indexError)))
  | .error .jsonDecodeError => .ok (.jstr (parse_error_msg (exc_str .jsonDecodeError)))
  | .error e => .error e

/-- Classification of a network outcome (main.py lines 107-133).  Mirrors
the source order: the explicit 401/429/500 checks come first, then
`raise_for_status()` (which raises `HTTPError` exactly for statuses in
400-599, caught by the `RequestException` clause), then `response.json()`
(`JSONDecodeError` on an undecodable body, caught), then the choices
extraction with its handlers.  `Timeout` and `ConnectionError` raised by
`requests.post` are caught by their dedicated clauses. -/
def classify_outcome : NetOutcome → Except PyExc JVal
  | .timeout => .ok (.jstr timeout_msg)
  | .connectionFailure => .ok (.jstr connection_msg)
  | .response status body =>
    if status = 401 then .ok (.jstr auth_error_msg)
    else if status = 429 then .ok (.jstr rate_limit_msg)
    else if status = 500 then .ok (.jstr server_error_msg)
    else if 400 ≤ status ∧ status < 600 then
      .ok (.jstr (request_error_msg (http_error_str status)))
    else
      match body with
      | none => .ok (.jstr (parse_error_msg (exc_str .jsonDecodeError)))
      | some result => apply_handlers (extract_content result)

/-- main.py lines 69-133, `get_deepseek_response(messages, api_key)`.
Returns the function result (`Except.error` = an uncaught Python exception
propagating to the caller) together with the list of outbound network
requests issued (empty or a singleton).  The guard is line 72:
`if not api_key or api_key.strip() == ""`. -/
def get_deepseek_response (messages : List Turn) (api_key : String)
    (net : NetOutcome) : Except PyExc JVal × List ApiRequest :=
  if api_key = "" ∨ pyStrip api_key = "" then
    (.ok (.jstr config_error_msg), [])
  else
    (classify_outcome net, [mk_request api_key messages])

/-! ### Speech Trigger: `text_to_speech` (main.py lines 136-154) -/

/-- Python `text.replace('"', '\\"')`: every double quote becomes a
backslash followed by a quote (single-character pattern, so the global
replace is a character-by-character map). -/
def pyReplaceQuote : List Char → List Char
  | [] => []
  | c :: rest => (if c = '"' then ['\\', '"'] else [c]) ++ pyReplaceQuote rest

/-- Python `text.replace('\n', ' ')`. -/
def pyReplaceNL : List Char → List Char
  | [] => []
  | c :: rest => (if c = '\n' then ' ' else c) :: pyReplaceNL rest

/-- main.py line 139: `clean_text = text.replace('"', '\\"').replace('\n', ' ')`.
This is the string interpolated into the generated script between backticks:
`const text = ` followed by a backtick, `clean_text`, a backtick and `;`. -/
def clean_text (text : String) : String := ⟨pyReplaceNL (pyReplaceQuote text.data)⟩

/-- Well-formedness of a character sequence as the body of a JavaScript
backtick-delimited template literal: scanning left to right, a backslash
consumes the next character (and must not be the last character, or it
would escape the closing backtick), a bare backtick ends the literal
early, and a dollar followed by an opening brace starts an interpolation
hole.  This is the formal reading of the spec phrase "the embedded
utterance script remains well-formed". -/
def template_body_ok : List Char → Bool
  | [] => true
  | c :: rest =>
    if c = '\\' then
      match rest with
      | [] => false
      | _ :: r2 => template_body_ok r2
    else if c = '\x60' then false
    else if c = '$' then
      match rest with
      | [] => true
      | c2 :: _ => if c2 = '\x7b' then false else template_body_ok rest
    else template_body_ok rest

/-! ### Session Controller (main.py lines 59-66, 200-220, 263-285, 323-341) -/

/-- The session state held in `st.session_state`: the transcript, the
credential, and the voice preference (main.py lines 59-66). -/
structure AppState where
  messages : List Turn
  api_key : String
  voice_enabled : Bool
deriving Repr

/-- Observable side effects of one user action: texts handed to
`text_to_speech` for playback, outbound network requests, and an uncaught
Python exception if one escaped the handler. -/
structure Effects where
  speech : List String
  requests : List ApiRequest
  raised : Option PyExc
deriving Repr

/-- No side effects. -/
def noEffects : Effects := ⟨[], [], none⟩

/-- Chat input handler (main.py lines 263-285).  Only reachable when an
API key is configured (line 263 gates on truthiness of `api_key`).  It
appends the user turn, calls the Completion Client on the updated
transcript, appends the returned text as the assistant turn, and speaks it
when voice is enabled and the text does not start with the `❌` marker
(line 281).  `bot_response.startswith` on a non-string reply raises
`AttributeError`, which nothing catches. -/
def stepChatInput (s : AppState) (text : String) (net : NetOutcome) :
    AppState × Effects :=
  if s.api_key = "" then (s, noEffects)
  else
    let msgs1 := s.messages ++ [⟨Role.user, .jstr text⟩]
    let r := get_deepseek_response msgs1 s.api_key net
    match r.1 with
    | .error e => ({ s with messages := msgs1 }, ⟨[], r.2, some e⟩)
    | .ok bot =>
      let msgs2 := msgs1 ++ [⟨Role.assistant, bot⟩]
      if s.voice_enabled then
        match bot with
        | .jstr str =>
          if py_startswith "❌" str then
            ({ s with messages := msgs2 }, ⟨[], r.2, none⟩)
          else
            ({ s with messages := msgs2 }, ⟨[str], r.2, none⟩)
        | _ => ({ s with messages := msgs2 }, ⟨[], r.2, some PyExc.attributeError⟩)
      else ({ s with messages := msgs2 }, ⟨[], r.2, none⟩)

/-- The four quick-action button texts (main.py lines 323-341). -/
def quick_action_texts : List String :=
  [ "Give me tips for better sleep"
  , "How to eat healthier?"
  , "What exercises should beginners do?"
  , "How to manage stress?" ]

/-- Quick-action button handler (main.py lines 323-341): appends the fixed
user message and calls `st.rerun()`.  The rerun re-executes the script from
the top; `st.chat_input` returns `None` on that rerun (no new submission),
so the appended user message is never sent to the Completion Client — no
network call and no assistant turn. -/
def stepQuickAction (s : AppState) (text : String) : AppState × Effects :=
  ({ s with messages := s.messages ++ [⟨Role.user, .jstr text⟩] }, noEffects)

/-- Clear Chat History button handler (main.py lines 200-202):
`st.session_state.messages = []`, a single atomic assignment. -/
def stepClear (s : AppState) : AppState × Effects :=
  ({ s with messages := [] }, noEffects)

/-- The fixed probe message of the Test Connection handler (main.py line 213). -/
def test_probe_turn : Turn :=
  ⟨Role.user, .jstr "Say \x27API connection successful\x27 in 5 words or less"⟩

/-- The display-stage checks of the Test Connection handler (main.py line
215): `if "❌" in response or "Error" in response`.  `in` on a non-string,
non-container response raises `TypeError`; the displayed outcome itself is
out of scope, only an escaping exception is recorded. -/
def display_check : Except PyExc JVal → Option PyExc
  | .error e => some e
  | .ok v =>
    match pyContains v (.jstr "❌") with
    | .error e => some e
    | .ok _ => none

/-- Test Connection button handler (main.py lines 209-220): gated on a
truthy API key, sends the fixed probe (a fresh local message list) through
`get_deepseek_response`, and displays the outcome.
`st.session_state.messages` is never touched. -/
def stepTestConnection (s : AppState) (net : NetOutcome) : AppState × Effects :=
  if s.api_key = "" then (s, noEffects)
  else
    let r := get_deepseek_response [test_probe_turn] s.api_key net
    (s, ⟨[], r.2, display_check r.1⟩)

/-- The success payload used by the spec as the canonical worked example. -/
def good_payload : JVal :=
  .jobj [("choices", .jarr [.jobj [("message", .jobj [("content", .jstr "Drink water.")])]])]

/-- The same payload with an empty choices array. -/
def empty_choices_payload : JVal := .jobj [("choices", .jarr [])]

/-! ### Helper lemmas on stripping -/

theorem dropWhile_idem (p : Char → Bool) (l : List Char) :
    (l.dropWhile p).dropWhile p = l.dropWhile p := by
  induction l with
  | nil => rfl
  | cons c rest ih =>
    by_cases hc : p c
    · simp [List.dropWhile_cons, hc, ih]
    · simp [List.dropWhile_cons, hc]

theorem dropRightWhile_idem (p : Char → Bool) (l : List Char) :
    dropRightWhile p (dropRightWhile p l) = dropRightWhile p l := by
  simp [dropRightWhile, dropWhile_idem]

theorem dropWhile_head_not (p : Char → Bool) (l : List Char) :
    l.dropWhile p = [] ∨ ∃ c rest, l.dropWhile p = c :: rest ∧ p c = false := by
  induction l with
  | nil => exact Or.inl rfl
  | cons c rest ih =>
    by_cases hc : p c
    · simpa [List.dropWhile_cons, hc] using ih
    · exact Or.inr ⟨c, rest, by simp [List.dropWhile_cons, hc], by simpa using hc⟩

theorem dropRightWhile_append (p : Char → Bool) (m : List Char) :
    dropRightWhile p m ++ (m.reverse.takeWhile p).reverse = m := by
  unfold dropRightWhile
  rw [← List.reverse_append, List.takeWhile_append_dropWhile, List.reverse_reverse]

theorem dropWhile_dropRightWhile_dropWhile (p : Char → Bool) (l : List Char) :
    (dropRightWhile p (l.dropWhile p)).dropWhile p = dropRightWhile p (l.dropWhile p) := by
  rcases dropWhile_head_not p l with h | ⟨c, rest, h, hc⟩
  · rw [h]; rfl
  · rw [h]
    have happ := dropRightWhile_append p (c :: rest)
    rcases hd : dropRightWhile p (c :: rest) with _ | ⟨d, drest⟩
    · rfl
    · rw [hd] at happ
      have hdc : d = c := by
        have := congrArg List.head? happ
        simpa using this
      subst hdc
      simp [List.dropWhile_cons, hc]

theorem trimList_idem (l : List Char) : trimList (trimList l) = trimList l := by
  unfold trimList
  rw [dropWhile_dropRightWhile_dropWhile isPySpace l, dropRightWhile_idem]

theorem pyStrip_idem (s : String) : pyStrip (pyStrip s) = pyStrip s := by
  unfold pyStrip
  exact congrArg String.mk (trimList_idem s.data)

/-! ### Claim theorems -/

/-- C10: `get_deepseek_response` is insensitive to surrounding whitespace in
the credential: both the emptiness guard and the authorization header are
computed from the trimmed credential, so for every transcript, credential
and network outcome the function behaves identically (same result, same
issued requests) on `k` and on `k.strip()`. -/
theorem getResponse_strip_insensitive (messages : List Turn) (api_key : String)
    (net : NetOutcome) :
    get_deepseek_response messages api_key net
      = get_deepseek_response messages (pyStrip api_key) net := by
  by_cases h : pyStrip api_key = ""
  · have h2 : pyStrip (pyStrip api_key) = "" := by rw [h]; rfl
    unfold get_deepseek_response
    rw [if_pos (Or.inr h), if_pos (Or.inr h2)]
  · have h1 : ¬(api_key = "" ∨ pyStrip api_key = "") := by
      rintro (h1 | h1)
      · exact h (by rw [h1]; rfl)
      · exact h h1
    have h2 : ¬(pyStrip api_key = "" ∨ pyStrip (pyStrip api_key) = "") := by
      rw [pyStrip_idem]
      rintro (h2 | h2) <;> exact h h2
    unfold get_deepseek_response
    rw [if_neg h1, if_neg h2]
    unfold mk_request
    rw [pyStrip_idem]

/-- C4: an empty or whitespace-only credential makes `get_deepseek_response`
return the authentication-configuration error message immediately, with an
empty list of outbound network requests. -/
theorem getResponse_empty_credential (messages : List Turn) (api_key : String)
    (net : NetOutcome) (h : pyStrip api_key = "") :
    get_deepseek_response messages api_key net = (.ok (.jstr config_error_msg), []) := by
  unfold get_deepseek_response
  rw [if_pos (Or.inr h)]

/-- Witness for C4 at the whitespace-only credential `"   "`. -/
theorem getResponse_empty_credential_witness :
    pyStrip "   " = "" ∧
    get_deepseek_response [] "   " NetOutcome.timeout = (.ok (.jstr config_error_msg), []) :=
  ⟨rfl, getResponse_empty_credential [] "   " NetOutcome.timeout rfl⟩

/-- C5: on a 2xx response whose body is the spec's success payload,
`get_deepseek_response` returns exactly the first choice's message content
`"Drink water."`; with an empty `choices` array it returns the format-error
message (an `.ok` result, not a raised exception). -/
theorem getResponse_success_extraction (messages : List Turn) (api_key : String)
    (h : ¬(api_key = "" ∨ pyStrip api_key = "")) :
    (get_deepseek_response messages api_key (.response 200 (some good_payload))).1
      = .ok (.jstr "Drink water.") ∧
    (get_deepseek_response messages api_key (.response 200 (some empty_choices_payload))).1
      = .ok (.jstr format_error_msg) := by
  constructor <;> simp only [get_deepseek_response, if_neg h] <;> rfl

/-- Witness for C5 at the concrete credential `"sk"`. -/
theorem getResponse_success_extraction_witness :
    (get_deepseek_response [] "sk" (.response 200 (some good_payload))).1
      = .ok (.jstr "Drink water.") ∧
    (get_deepseek_response [] "sk" (.response 200 (some empty_choices_payload))).1
      = .ok (.jstr format_error_msg) :=
  getResponse_success_extraction [] "sk" (by decide)

/-- C3 (amended): with a configured credential, outcomes are classified in
the source's order: status 401, 429 and 500 yield their specific messages
for every body (the checks precede body parsing); every other status in
400-599 yields the generic request-error message carrying the status
detail; a connection failure yields the connectivity message; a timeout
yields the timeout message; an undecodable body on a status outside
400-599 yields the parse-error message.  (Statuses outside 400-599, e.g.
3xx, are NOT turned into HTTP errors: `raise_for_status` only raises for
400-599, so they fall through to body parsing.) -/
theorem getResponse_classification (messages : List Turn) (api_key : String)
    (h : ¬(api_key = "" ∨ pyStrip api_key = "")) :
    (∀ body, (get_deepseek_response messages api_key (.response 401 body)).1
      = .ok (.jstr auth_error_msg)) ∧
    (∀ body, (get_deepseek_response messages api_key (.response 429 body)).1
      = .ok (.jstr rate_limit_msg)) ∧
    (∀ body, (get_deepseek_response messages api_key (.response 500 body)).1
      = .ok (.jstr server_error_msg)) ∧
    (∀ status body, 400 ≤ status → status < 600 →
      status ≠ 401 → status ≠ 429 → status ≠ 500 →
      (get_deepseek_response messages api_key (.response status body)).1
        = .ok (.jstr (request_error_msg (http_error_str status)))) ∧
    ((get_deepseek_response messages api_key .connectionFailure).1
      = .ok (.jstr connection_msg)) ∧
    ((get_deepseek_response messages api_key .timeout).1
      = .ok (.jstr timeout_msg)) ∧
    (∀ status, ¬(400 ≤ status ∧ status < 600) →
      (get_deepseek_response messages api_key (.response status none)).1
        = .ok (.jstr (parse_error_msg (exc_str .jsonDecodeError)))) := by
  simp only [get_deepseek_response, if_neg h]
  refine ⟨fun _ => rfl, fun _ => rfl, fun _ => rfl, ?_, rfl, rfl, ?_⟩
  · intro status body h4 h6 hn1 hn2 hn3
    simp only [classify_outcome, if_neg hn1, if_neg hn2, if_neg hn3,
      if_pos (⟨h4, h6⟩ : 400 ≤ status ∧ status < 600)]
  · intro status hrange
    have hn1 : status ≠ 401 := by omega
    have hn2 : status ≠ 429 := by omega
    have hn3 : status ≠ 500 := by omega
    simp only [classify_outcome, if_neg hn1, if_neg hn2, if_neg hn3, if_neg hrange]

/-- Witness for the amended C3 at concrete statuses (401, 429, 500, 404 as
a generic 4xx, connection failure, timeout, and an undecodable body on the
out-of-range status 304). -/
theorem getResponse_classification_witness :
    (get_deepseek_response [] "k" (.response 401 none)).1 = .ok (.jstr auth_error_msg) ∧
    (get_deepseek_response [] "k" (.response 429 none)).1 = .ok (.jstr rate_limit_msg) ∧
    (get_deepseek_response [] "k" (.response 500 none)).1 = .ok (.jstr server_error_msg) ∧
    (get_deepseek_response [] "k" (.response 404 none)).1
      = .ok (.jstr (request_error_msg (http_error_str 404))) ∧
    (get_deepseek_response [] "k" .connectionFailure).1 = .ok (.jstr connection_msg) ∧
    (get_deepseek_response [] "k" .timeout).1 = .ok (.jstr timeout_msg) ∧
    (get_deepseek_response [] "k" (.response 304 none)).1
      = .ok (.jstr (parse_error_msg (exc_str .jsonDecodeError))) := by
  have h := getResponse_classification [] "k" (by decide)
  exact ⟨h.1 none, h.2.1 none, h.2.2.1 none,
    h.2.2.2.1 404 none (by omega) (by omega) (by decide) (by decide) (by decide),
    h.2.2.2.2.1, h.2.2.2.2.2.1,
    h.2.2.2.2.2.2 304 (by omega)⟩

/-- C3 counterexample: the claim says every non-2xx status other than
401/429/500 yields the generic HTTP-error message, but a 304 response with
a parseable success body is processed as a success: `raise_for_status`
does not raise for 3xx, so the body is parsed and its content returned. -/
theorem getResponse_3xx_counterexample :
    (get_deepseek_response [] "k" (.response 304 (some good_payload))).1
      = .ok (.jstr "Drink water.") ∧
    "Drink water." ≠ request_error_msg (http_error_str 304) :=
  ⟨rfl, by decide⟩

/-- C6: at the failing input (configured credential, HTTP 200, JSON body
`5`), `get_deepseek_response` does not return a string: the membership
test `'choices' in result` on an integer raises `TypeError`, which no
`except` clause of the source catches, so the exception escapes to the
caller. -/
theorem getResponse_typeerror_escape :
    (get_deepseek_response [] "k" (.response 200 (some (.jnum 5)))).1
      = .error PyExc.typeError := rfl

/-- C1: at the failing input (clicking the Sleep Tips quick-action button
on an empty transcript), the handler appends only the user turn and
produces no effects: no network request is issued and no assistant turn is
appended, so the transcript is left with a single unpaired user turn
(count 1, which is not 2N for any N). -/
theorem quick_action_unpaired_turn :
    (stepQuickAction ⟨[], "k", false⟩ "Give me tips for better sleep").1.messages
      = [⟨Role.user, .jstr "Give me tips for better sleep"⟩] ∧
    (stepQuickAction ⟨[], "k", false⟩ "Give me tips for better sleep").2 = noEffects :=
  ⟨rfl, rfl⟩

/-- C2 counterexample: with VoicePreference enabled, a rate-limited call
(HTTP 429) produces the classified rate-limit error as the assistant turn,
and the Speech Trigger IS invoked with it: the suppression check only
tests for the `❌` prefix, which the rate-limit message (`⚠️ ...`) lacks. -/
theorem speech_rate_limit_counterexample :
    (get_deepseek_response [⟨Role.user, .jstr "hi"⟩] "k" (.response 429 none)).1
      = .ok (.jstr rate_limit_msg) ∧
    (stepChatInput ⟨[], "k", true⟩ "hi" (.response 429 none)).2.speech = [rate_limit_msg] :=
  ⟨rfl, rfl⟩

/-- C2 (amended): for every string reply returned by the Completion Client,
the chat handler invokes the Speech Trigger exactly once with the reply
text iff VoicePreference is enabled and the reply does not start with the
`❌` marker, and never otherwise.  In particular errors whose marker is not
`❌` (rate limit, timeout, connection) DO trigger speech when voice is
enabled, while voice disabled always suppresses it. -/
theorem speech_gating (s : AppState) (text : String) (net : NetOutcome) (bot : String)
    (hkey : ¬s.api_key = "")
    (hbot : (get_deepseek_response (s.messages ++ [⟨Role.user, .jstr text⟩]) s.api_key net).1
      = .ok (.jstr bot)) :
    (stepChatInput s text net).2.speech
      = (if s.voice_enabled && !(py_startswith "❌" bot) then [bot] else []) := by
  unfold stepChatInput
  rw [if_neg hkey]
  simp only [hbot]
  by_cases hv : s.voice_enabled = true
  · by_cases hp : py_startswith "❌" bot = true
    · simp [hv, hp]
    · simp [hv, hp]
  · simp [hv]

/-- Witness for the amended C2: voice enabled, successful reply
`"Drink water."`, spoken exactly once. -/
theorem speech_gating_witness :
    (stepChatInput ⟨[], "k", true⟩ "hi" (.response 200 (some good_payload))).2.speech
      = ["Drink water."] := by
  have h := speech_gating ⟨[], "k", true⟩ "hi" (.response 200 (some good_payload))
    "Drink water." (by decide) rfl
  simpa using h

/-- C8: the Test Connection handler leaves the whole session state — in
particular the transcript — unchanged, and the only requests it can issue
carry the fixed probe message (prefixed by the system instruction) rather
than the session transcript. -/
theorem test_connection_frame (s : AppState) (net : NetOutcome) :
    (stepTestConnection s net).1 = s ∧
    (stepTestConnection s net).2.requests.map (fun r => r.messages)
      = (if s.api_key = "" ∨ pyStrip s.api_key = ""
          then [] else [[system_message, test_probe_turn]]) := by
  by_cases h1 : s.api_key = ""
  · constructor
    · simp [stepTestConnection, h1]
    · simp [stepTestConnection, noEffects, h1]
  · by_cases h2 : pyStrip s.api_key = ""
    · constructor
      · simp [stepTestConnection, h1]
      · simp [stepTestConnection, get_deepseek_response, noEffects, h1, h2]
    · have h3 : ¬(s.api_key = "" ∨ pyStrip s.api_key = "") := by
        rintro (h | h)
        · exact h1 h
        · exact h2 h
      constructor
      · simp [stepTestConnection, h1]
      · simp [stepTestConnection, get_deepseek_response, mk_request, noEffects, h1, h2, h3]

theorem template_body_ok_cons_backslash (d : Char) (m : List Char) :
    template_body_ok ('\\' :: d :: m) = template_body_ok m := rfl

theorem template_body_ok_cons_other (c : Char) (m : List Char)
    (hb : c ≠ '\\') (ht : c ≠ '\x60') (hd : c ≠ '$') :
    template_body_ok (c :: m) = template_body_ok m := by
  conv_lhs => rw [template_body_ok.eq_def]
  dsimp only
  rw [if_neg hb, if_neg ht, if_neg hd]

theorem pyReplaceNL_no_newline (l : List Char) : '\n' ∉ pyReplaceNL l := by
  induction l with
  | nil => simp [pyReplaceNL]
  | cons c rest ih =>
    by_cases hc : c = '\n'
    · simp only [pyReplaceNL, if_pos hc, List.mem_cons, not_or]
      exact ⟨by decide, ih⟩
    · simp only [pyReplaceNL, if_neg hc, List.mem_cons, not_or]
      exact ⟨fun h => hc h.symm, ih⟩

theorem template_ok_clean (l : List Char)
    (h1 : '\x60' ∉ l) (h2 : '$' ∉ l) (h3 : '\\' ∉ l) :
    template_body_ok (pyReplaceNL (pyReplaceQuote l)) = true := by
  induction l with
  | nil => rfl
  | cons c rest ih =>
    rw [List.mem_cons, not_or] at h1 h2 h3
    obtain ⟨h1c, h1r⟩ := h1
    obtain ⟨h2c, h2r⟩ := h2
    obtain ⟨h3c, h3r⟩ := h3
    by_cases hq : c = '"'
    · subst hq
      simp only [pyReplaceQuote, if_pos rfl, List.cons_append, List.nil_append]
      simp only [pyReplaceNL, if_neg (by decide : ¬('\\' : Char) = '\n'),
        if_neg (by decide : ¬('"' : Char) = '\n')]
      rw [template_body_ok_cons_backslash]
      exact ih h1r h2r h3r
    · by_cases hn : c = '\n'
      · subst hn
        simp only [pyReplaceQuote, if_neg hq, List.cons_append, List.nil_append]
        have hstep : pyReplaceNL ('\n' :: pyReplaceQuote rest)
            = ' ' :: pyReplaceNL (pyReplaceQuote rest) := by
          simp [pyReplaceNL]
        rw [hstep, template_body_ok_cons_other ' ' _ (by decide) (by decide) (by decide)]
        exact ih h1r h2r h3r
      · simp only [pyReplaceQuote, if_neg hq, List.cons_append, List.nil_append]
        simp only [pyReplaceNL, if_neg hn]
        rw [template_body_ok_cons_other c _ (fun h => h3c h.symm)
          (fun h => h1c h.symm) (fun h => h2c h.symm)]
        exact ih h1r h2r h3r

/-- C7 counterexample: for the one-character input consisting of a single
backtick, the cleaned text interpolated into the generated script is not a
well-formed template-literal body: the backtick is neither escaped nor
neutralized by `text_to_speech`, which only rewrites double quotes and
newlines, so the embedded utterance script is NOT well-formed for all
inputs. -/
theorem tts_backtick_counterexample :
    template_body_ok (clean_text "\x60").data = false := rfl

/-- C7 (amended): `text_to_speech` neutralizes double quotes (escaped) and
newlines (replaced by spaces), and the cleaned text never contains a
newline; but the interpolation context is a backtick template literal, so
the generated script is only guaranteed well-formed for texts containing
no backtick, no dollar sign and no backslash — characters the cleaning
step leaves untouched. -/
theorem tts_escaping_amended (text : String)
    (h1 : '\x60' ∉ text.data) (h2 : '$' ∉ text.data) (h3 : '\\' ∉ text.data) :
    '\n' ∉ (clean_text text).data ∧ template_body_ok (clean_text text).data = true :=
  ⟨pyReplaceNL_no_newline _, template_ok_clean text.data h1 h2 h3⟩

/-- Witness for the amended C7 at a text exercising both rewrites (a quoted
number and a newline). -/
theorem tts_escaping_amended_witness :
    '\x60' ∉ ("Drink \"2\" liters\nof water").data ∧
    ('\n' ∉ (clean_text "Drink \"2\" liters\nof water").data ∧
      template_body_ok (clean_text "Drink \"2\" liters\nof water").data = true) :=
  ⟨by decide,
    tts_escaping_amended "Drink \"2\" liters\nof water" (by decide) (by decide) (by decide)⟩

/-- C9: clearing the chat history yields a transcript with count 0, from
every prior state; the model's single-step transition reflects the single
atomic assignment `st.session_state.messages = []` of the source. -/
theorem clear_resets_count (s : AppState) : (stepClear s).1.messages.length = 0 := rfl

end HealthAdvisor
